import Mathlib

/-!
Shallow embedding of the warpnet-sre-challenge login example.

The repository holds two variants of a Flask login app plus a password
hashing helper:
  * `src/app/app.py` — the hardened variant: `authenticate` looks up one
    user row by a parameterized query, compares the candidate password
    against the stored bcrypt hash with `bcrypt.checkpw`, and on success
    marks the session permanent and stores the username; `login` checks
    form-field truthiness before calling `authenticate`; `logout` pops the
    username from the session.
  * `src/app/app_original.py` — the baseline variant: `authenticate`
    fetches ALL user rows, compares plaintext passwords with `==`, logs the
    password on both paths, and calls `abort(401)` on failure.
  * `src/app/create_password.py` — `generate_hashed_password` wraps
    `bcrypt.hashpw` with a fresh salt.

The embedding models each function over explicit state: the database is a
list of rows plus a flag modelling a storage-layer fault (connect/execute
raising); the Flask session is a record of the optional username and the
permanent flag; log calls and storage-connection events are collected in
traces so that logging and resource claims can be stated.

bcrypt is an external library, not code of this repository; it is modelled
as an ideal collision-free salted hash: a hash value records the salt and
the (untruncated) preimage, `checkpw` recomputes and compares, exactly the
equational behavior the hash's interface contract gives it.
-/

namespace Warpnet

/-- Modelled from the spec: an opaque bcrypt hash value, self-describing
(it embeds the salt). The digest is represented by the preimage itself,
which gives the ideal collision-free behavior of the salted adaptive hash
the interface contract describes. -/
structure BHash where
  salt : Nat
  pre : String
deriving DecidableEq, Repr

/-- Modelled from the spec: `bcrypt.hashpw(password, salt)` as an ideal
salted hash: deterministic in `(password, salt)`. -/
def hashpw (password : String) (salt : Nat) : BHash :=
  { salt := salt, pre := password }

/-- Modelled from the spec: `bcrypt.checkpw(candidate, stored)` recomputes
the hash of the candidate under the stored hash's embedded salt and
compares. -/
def checkpw (candidate : String) (stored : BHash) : Bool :=
  hashpw candidate stored.salt == stored

/-- `create_password.generate_hashed_password`: hashes a plaintext with a
freshly generated salt. `bcrypt.gensalt()` is nondeterministic, so the
salt is an explicit parameter. -/
def generate_hashed_password (plain_password : String) (salt : Nat) : BHash :=
  hashpw plain_password salt

/-- The `password` column of the hardened variant's `users` table: the
bcrypt hash may be stored as TEXT or as BLOB; `authenticate` re-encodes a
TEXT value to bytes before `checkpw` (app.py lines 119-121). -/
inductive StoredPw where
  | asStr (h : BHash)
  | asBytes (h : BHash)
deriving DecidableEq, Repr

/-- app.py lines 119-121: `stored_hashed_pw.encode('utf-8')` when the
column held TEXT, the identity on BLOB; either way the bytes of the hash. -/
def StoredPw.toBytes : StoredPw → BHash
  | .asStr h => h
  | .asBytes h => h

/-- A row of the hardened variant's `users` table. -/
structure UserRow where
  username : String
  password : StoredPw
deriving DecidableEq, Repr

/-- The database as `authenticate` sees it: the `users` rows, plus a flag
modelling a storage-layer fault (sqlite3 connect/execute raising). -/
structure Db where
  rows : List UserRow
  failing : Bool
deriving DecidableEq, Repr

/-- app.py lines 112-115: `SELECT * FROM users WHERE username = ?` then
`fetchone()` — the first row whose username column equals the parameter. -/
def Db.fetchone (db : Db) (u : String) : Option UserRow :=
  (db.rows.filter (fun r => r.username == u)).head?

/-- The Flask session as the login code touches it: the optional
`username` entry and the `permanent` flag. -/
structure Session where
  username : Option String
  permanent : Bool
deriving DecidableEq, Repr

/-- app.py lines 90-94: `is_authenticated` — whether `username` is in the
session. -/
def is_authenticated (s : Session) : Bool :=
  s.username.isSome

/-- One call to `app.logger`: severity and message. -/
inductive LogEvent where
  | info (msg : String)
  | warning (msg : String)
deriving DecidableEq, Repr

/-- An event on the storage connection. `query` records the username the
SQL filtered by (`none` for an unfiltered `SELECT * FROM users`); `txEnd`
is the sqlite3 connection context manager's `__exit__`, which commits or
rolls back the transaction but does not close the connection; `close` is
an explicit `connection.close()`. -/
inductive StorageEvent where
  | acquire
  | query (filterUsername : Option String)
  | txEnd
  | close
deriving DecidableEq, Repr

/-- How a Python call ends when it does not return: an uncaught exception
propagating, or a Flask `abort(code)`. -/
inductive PyError where
  | uncaught
  | httpAbort (code : Nat)
deriving DecidableEq, Repr

/-- The value a Python function call produces: a returned boolean or a
propagated error. -/
inductive PyResult where
  | ret (b : Bool)
  | raised (e : PyError)
deriving DecidableEq, Repr

/-- Everything observable about one `authenticate` call: its result, the
session afterwards, the log trace and the storage-connection trace. -/
structure Outcome where
  result : PyResult
  session : Session
  logs : List LogEvent
  storage : List StorageEvent
deriving DecidableEq, Repr

/-- app.py line 126: the success log message, built from the username
only. -/
def successMsg (username : String) : String :=
  "User '" ++ username ++ "' logged in successfully."

/-- app.py line 132: the failure log message, built from the username
only. -/
def failMsg (username : String) : String :=
  "Login failed for user '" ++ username ++ "'."

/-- app.py lines 103-133: `authenticate(username, password)`. The
`with get_db_connection() as conn` block acquires the connection and runs
the parameterized lookup; the sqlite3 context manager ends the transaction
on exit but never closes the connection, and an exception raised by the
lookup propagates out of `authenticate` (there is no try/except). On a
row whose hash verifies, the session is made permanent and the username
stored; otherwise a warning is logged and False returned. -/
def authenticate (db : Db) (username password : String) (s : Session) : Outcome :=
  if db.failing then
    { result := .raised .uncaught, session := s, logs := [],
      storage := [.acquire, .txEnd] }
  else
    let storage := [StorageEvent.acquire, .query (some username), .txEnd]
    match db.fetchone username with
    | some user =>
      let stored_hashed_pw := user.password.toBytes
      if checkpw password stored_hashed_pw then
        { result := .ret true,
          session := { username := some username, permanent := true },
          logs := [.info (successMsg username)], storage := storage }
      else
        { result := .ret false, session := s,
          logs := [.warning (failMsg username)], storage := storage }
    | none =>
      { result := .ret false, session := s,
        logs := [.warning (failMsg username)], storage := storage }

/-- What the POST branch of the `/login` route answers with. -/
inductive LoginResult where
  | redirectIndex
  | renderLoginError
  | raised (e : PyError)
deriving DecidableEq, Repr

/-- Python truthiness of `request.form.get(...)`: `None` and the empty
string are falsy. -/
def truthy : Option String → Bool
  | none => false
  | some s => s != ""

/-- Everything observable about one POST to `/login`. -/
structure LoginOutcome where
  result : LoginResult
  session : Session
  logs : List LogEvent
  storage : List StorageEvent
deriving DecidableEq, Repr

/-- app.py lines 157-166: the POST branch of `login`. The guard
`username and password and authenticate(...)` short-circuits: when either
form field is absent or empty, `authenticate` is never called and the
generic error is flashed; otherwise success redirects and failure flashes
the same generic error. An exception from `authenticate` propagates. -/
def login_post (db : Db) (form_username form_password : Option String)
    (s : Session) : LoginOutcome :=
  if truthy form_username && truthy form_password then
    let o := authenticate db (form_username.getD "") (form_password.getD "") s
    match o.result with
    | .ret true =>
      { result := .redirectIndex, session := o.session,
        logs := o.logs, storage := o.storage }
    | .ret false =>
      { result := .renderLoginError, session := o.session,
        logs := o.logs, storage := o.storage }
    | .raised e =>
      { result := .raised e, session := o.session,
        logs := o.logs, storage := o.storage }
  else
    { result := .renderLoginError, session := s, logs := [], storage := [] }

/-- app.py lines 170-178: `logout` — `session.pop("username", None)`,
which removes the entry if present and does nothing otherwise. -/
def logout (s : Session) : Session :=
  { s with username := none }

end Warpnet

namespace Warpnet.Original

/-- A row of the baseline variant's `users` table: the password column
holds the plaintext password. -/
structure UserRow where
  username : String
  password : String
deriving DecidableEq, Repr

/-- The baseline variant's database: rows plus a storage-fault flag. -/
structure Db where
  rows : List UserRow
  failing : Bool
deriving DecidableEq, Repr

/-- app_original.py line 39: the success log message — it interpolates the
plaintext password. -/
def successMsg (username password : String) : String :=
  "the user '" ++ username ++ "' logged in successfully with password '"
    ++ password ++ "'"

/-- app_original.py line 44: the failure log message — it also
interpolates the plaintext password. -/
def failMsg (username password : String) : String :=
  "the user '" ++ username ++ "' failed to log in '" ++ password ++ "'"

/-- app_original.py lines 26-49: the baseline `authenticate`. It fetches
ALL rows (`SELECT * FROM users`, no filter), closes the connection (only
on the path where the query succeeded), scans for a row equal in both
username and plaintext password, logs the password on either outcome, and
on no match calls `abort(401)` instead of returning False. -/
def authenticate (db : Db) (username password : String)
    (s : Warpnet.Session) : Warpnet.Outcome :=
  if db.failing then
    { result := .raised .uncaught, session := s, logs := [],
      storage := [.acquire] }
  else
    let storage := [Warpnet.StorageEvent.acquire, .query none, .close]
    match db.rows.find? (fun r => r.username == username && r.password == password) with
    | some _ =>
      { result := .ret true, session := { s with username := some username },
        logs := [.info (successMsg username password)], storage := storage }
    | none =>
      { result := .raised (.httpAbort 401), session := s,
        logs := [.warning (failMsg username password)], storage := storage }

end Warpnet.Original

namespace Warpnet

/-- Sample data used by the concrete witness instances below. -/
def aliceRow : UserRow :=
  { username := "alice", password := .asBytes (hashpw "correct-horse" 7) }

def dbAlice : Db := { rows := [aliceRow], failing := false }

def dbEmpty : Db := { rows := [], failing := false }

def dbDown : Db := { rows := [], failing := true }

def emptySession : Session := { username := none, permanent := false }

/-- When a predicate holds of exactly one element of a list, the filtered
list's head is that element: `fetchone` on a table whose usernames are a
unique key returns the row of the given username. -/
theorem head_filter_of_unique {l : List UserRow} {u : String} {row : UserRow}
    (hmem : row ∈ l) (hname : row.username = u)
    (huniq : ∀ r ∈ l, r.username = u → r = row) :
    (l.filter (fun r => r.username == u)).head? = some row := by
  induction l with
  | nil => exact absurd hmem (List.not_mem_nil row)
  | cons a t ih =>
    rw [List.filter_cons]
    by_cases ha : a.username = u
    · have haru : a = row := huniq a (List.mem_cons_self a t) ha
      subst haru
      simp [ha]
    · have hcond : (a.username == u) = false := by
        simpa using ha
      rw [hcond]
      simp only [Bool.false_eq_true, if_false]
      have hmem2 : row ∈ t := by
        rcases List.mem_cons.mp hmem with h | h
        · subst h; exact absurd hname ha
        · exact h
      exact ih hmem2 (fun r hr hru => huniq r (List.mem_cons_of_mem a hr) hru)

/-- C1: for every (username, password) pair where a credential record
exists for that username (usernames being a unique key) and the stored
hash is a hash of that password, `authenticate` returns True, establishes
a session whose subject is that username, and marks the session
permanent. -/
theorem authenticate_success_establishes_session
    (db : Db) (u p : String) (s : Session) (salt : Nat) (row : UserRow)
    (hfail : db.failing = false)
    (hmem : row ∈ db.rows) (hname : row.username = u)
    (huniq : ∀ r ∈ db.rows, r.username = u → r = row)
    (hhash : row.password.toBytes = hashpw p salt) :
    (authenticate db u p s).result = .ret true ∧
    (authenticate db u p s).session.username = some u ∧
    (authenticate db u p s).session.permanent = true := by
  have hf : db.fetchone u = some row := head_filter_of_unique hmem hname huniq
  have hck : checkpw p row.password.toBytes = true := by
    rw [hhash]; simp [checkpw, hashpw]
  unfold authenticate
  simp [Db.fetchone] at hf
  simp [hfail, Db.fetchone, hf, hck]

/-- Witness for C1 at a concrete table holding alice's hashed record. -/
theorem authenticate_success_establishes_session_witness :
    (authenticate dbAlice "alice" "correct-horse" emptySession).result = .ret true ∧
    (authenticate dbAlice "alice" "correct-horse" emptySession).session.username
      = some "alice" ∧
    (authenticate dbAlice "alice" "correct-horse" emptySession).session.permanent
      = true :=
  authenticate_success_establishes_session dbAlice "alice" "correct-horse"
    emptySession 7 aliceRow rfl (by decide) rfl (by decide) rfl

/-- C2: an unknown username and a wrong password for a known username
produce identical outcomes — the same returned value (False), the same
log trace shape and the same final session — so the result does not
distinguish the two causes. -/
theorem authenticate_uniform_failure
    (db1 db2 : Db) (u p1 p2 : String) (s : Session) (row : UserRow)
    (h1f : db1.failing = false) (h2f : db2.failing = false)
    (h1 : db1.fetchone u = none)
    (h2 : db2.fetchone u = some row)
    (h3 : checkpw p2 row.password.toBytes = false) :
    authenticate db1 u p1 s = authenticate db2 u p2 s ∧
    (authenticate db1 u p1 s).result = .ret false := by
  unfold authenticate
  simp [h1f, h2f, h1, h2, h3]

/-- Witness for C2: the empty table versus alice's table with a wrong
password give equal outcomes. -/
theorem authenticate_uniform_failure_witness :
    authenticate dbEmpty "alice" "pw1" emptySession =
      authenticate dbAlice "alice" "wrong" emptySession ∧
    (authenticate dbEmpty "alice" "pw1" emptySession).result = .ret false :=
  authenticate_uniform_failure dbEmpty dbAlice "alice" "pw1" "wrong" emptySession
    aliceRow rfl rfl (by decide) (by decide) (by decide)

/-- C3: when the username or the password form field is absent or empty,
the login POST fails immediately: no storage event happens (the store is
not queried), no log is written, the session is unchanged, and the
generic error page is rendered. -/
theorem login_missing_input_skips_store
    (db : Db) (fu fp : Option String) (s : Session)
    (h : truthy fu = false ∨ truthy fp = false) :
    login_post db fu fp s =
      { result := .renderLoginError, session := s, logs := [], storage := [] } := by
  unfold login_post
  rcases h with h | h <;> simp [h]

/-- Witness for C3 at the empty-string username. -/
theorem login_missing_input_skips_store_witness :
    login_post dbAlice (some "") (some "x") emptySession =
      { result := .renderLoginError, session := emptySession,
        logs := [], storage := [] } :=
  login_missing_input_skips_store dbAlice (some "") (some "x") emptySession
    (Or.inl rfl)

end Warpnet

namespace Warpnet

/-- C4 (divergence record): when the storage layer fails, `authenticate`
has no try/except, so the exception propagates uncaught to the caller —
it is not mapped to any failure result — and no error-severity log entry
is written. -/
theorem authenticate_storage_failure_propagates
    (db : Db) (u p : String) (s : Session) (h : db.failing = true) :
    (authenticate db u p s).result = .raised .uncaught ∧
    (authenticate db u p s).logs = [] ∧
    ∀ b : Bool, (authenticate db u p s).result ≠ .ret b := by
  unfold authenticate
  simp [h]

/-- Witness for C4 at a concrete failing store. -/
theorem authenticate_storage_failure_propagates_witness :
    (authenticate dbDown "alice" "pw" emptySession).result = .raised .uncaught ∧
    (authenticate dbDown "alice" "pw" emptySession).logs = [] ∧
    ∀ b : Bool, (authenticate dbDown "alice" "pw" emptySession).result ≠ .ret b :=
  authenticate_storage_failure_propagates dbDown "alice" "pw" emptySession rfl

/-- C5: on every path of `authenticate` the log trace is empty or a single
entry whose message is a function of the username alone (`successMsg` or
`failMsg`); neither the candidate password nor the stored hash reaches any
log message. -/
theorem authenticate_logs_username_only
    (db : Db) (u p : String) (s : Session) :
    (authenticate db u p s).logs = [] ∨
    (authenticate db u p s).logs = [.info (successMsg u)] ∨
    (authenticate db u p s).logs = [.warning (failMsg u)] := by
  unfold authenticate
  cases hb : db.failing
  · cases hfo : db.fetchone u with
    | none => simp [hfo]
    | some row =>
      cases hc : checkpw p row.password.toBytes <;> simp [hfo, hc]
  · simp

/-- C6: round-trip of the password hasher under the ideal-hash model of
bcrypt: verifying p against a hash of p succeeds for non-empty p, and
verifying p against a hash of a distinct p2 fails. -/
theorem generate_hashed_password_round_trip
    (p p2 : String) (salt salt2 : Nat) (hp : p ≠ "") :
    checkpw p (generate_hashed_password p salt) = true ∧
    (p ≠ p2 → checkpw p (generate_hashed_password p2 salt2) = false) := by
  constructor
  · simp [checkpw, generate_hashed_password, hashpw]
  · intro hne
    simp [checkpw, generate_hashed_password, hashpw, BHash.mk.injEq, hne]

/-- Witness for C6 at concrete plaintexts and salts. -/
theorem generate_hashed_password_round_trip_witness :
    checkpw "correct-horse" (generate_hashed_password "correct-horse" 3) = true ∧
    checkpw "correct-horse" (generate_hashed_password "battery-staple" 5) = false :=
  ⟨(generate_hashed_password_round_trip "correct-horse" "battery-staple" 3 5
      (by decide)).1,
   (generate_hashed_password_round_trip "correct-horse" "battery-staple" 3 5
      (by decide)).2 (by decide)⟩

/-- C7: `authenticate` is idempotent on failure — whenever it does not
return True (missing record, wrong password, or storage failure) the
session is exactly the one passed in; only the successful path replaces
it, with the permanent session for the given username. -/
theorem authenticate_failure_preserves_session
    (db : Db) (u p : String) (s : Session) :
    ((authenticate db u p s).result ≠ .ret true →
      (authenticate db u p s).session = s) ∧
    ((authenticate db u p s).result = .ret true →
      (authenticate db u p s).session =
        { username := some u, permanent := true }) := by
  unfold authenticate
  cases hb : db.failing
  · cases hfo : db.fetchone u with
    | none => simp [hfo]
    | some row =>
      cases hc : checkpw p row.password.toBytes <;> simp [hfo, hc]
  · simp

/-- C8 (divergence record): no path of `authenticate` ever closes the
storage connection — the sqlite3 connection context manager used by the
code ends the transaction (`txEnd`) but does not release the
connection, on the success, failure and error paths alike. -/
theorem authenticate_never_closes_connection
    (db : Db) (u p : String) (s : Session) :
    StorageEvent.close ∉ (authenticate db u p s).storage ∧
    (authenticate db u p s).storage ≠ [] := by
  unfold authenticate
  cases hb : db.failing
  · cases hfo : db.fetchone u with
    | none => simp [hfo]
    | some row =>
      cases hc : checkpw p row.password.toBytes <;> simp [hfo, hc]
  · simp

end Warpnet

namespace Warpnet

/-- Sample data for the baseline variant's witness. -/
def rowBob : Original.UserRow := { username := "bob", password := "hunter2" }

def dbOrig : Original.Db := { rows := [rowBob], failing := false }

/-- C9: the baseline variant's `authenticate` queries all credential
records (the query carries no username filter), decides success by
plaintext string equality against the stored password in application
code, logs the plaintext password in the single log message of both the
success and the failure path, and on any non-match raises an HTTP 401
abort instead of returning a failure value. -/
theorem authenticate_original_defects
    (db : Original.Db) (u p : String) (s : Session)
    (hfail : db.failing = false) :
    (StorageEvent.query none ∈ (Original.authenticate db u p s).storage ∧
      ∀ u2 : String,
        StorageEvent.query (some u2) ∉ (Original.authenticate db u p s).storage) ∧
    ((∃ r ∈ db.rows, r.username = u ∧ r.password = p) →
      (Original.authenticate db u p s).result = .ret true ∧
      (Original.authenticate db u p s).logs = [.info (Original.successMsg u p)]) ∧
    ((¬ ∃ r ∈ db.rows, r.username = u ∧ r.password = p) →
      (Original.authenticate db u p s).result = .raised (.httpAbort 401) ∧
      (Original.authenticate db u p s).logs = [.warning (Original.failMsg u p)]) := by
  cases hfind : db.rows.find? (fun r => r.username == u && r.password == p) with
  | some r =>
    have hrmem : r ∈ db.rows := List.mem_of_find?_eq_some hfind
    have hrp := List.find?_some hfind
    simp only [Bool.and_eq_true, beq_iff_eq] at hrp
    have hex : ∃ x ∈ db.rows, x.username = u ∧ x.password = p := ⟨r, hrmem, hrp⟩
    refine ⟨⟨?_, ?_⟩, ?_, ?_⟩
    · simp [Original.authenticate, hfail, hfind]
    · intro u2; simp [Original.authenticate, hfail, hfind]
    · intro _; simp [Original.authenticate, hfail, hfind]
    · intro hno; exact absurd hex hno
  | none =>
    refine ⟨⟨?_, ?_⟩, ?_, ?_⟩
    · simp [Original.authenticate, hfail, hfind]
    · intro u2; simp [Original.authenticate, hfail, hfind]
    · rintro ⟨r, hr, hu2, hp2⟩
      have := List.find?_eq_none.mp hfind r hr
      simp [hu2, hp2] at this
    · intro _; simp [Original.authenticate, hfail, hfind]

/-- Witness for C9: bob's plaintext record authenticates by string
equality in the baseline variant. -/
theorem authenticate_original_defects_witness :
    (Original.authenticate dbOrig "bob" "hunter2" emptySession).result
      = .ret true ∧
    (Original.authenticate dbOrig "bob" "hunter2" emptySession).logs
      = [.info (Original.successMsg "bob" "hunter2")] :=
  (authenticate_original_defects dbOrig "bob" "hunter2" emptySession rfl).2.1
    (by decide)

/-- C10: `logout` is total and idempotent — from any session state,
including one with no authenticated user, it removes the username entry,
after it `is_authenticated` reports false, and a second call leaves the
session exactly as the first did. -/
theorem logout_idempotent (s : Session) :
    is_authenticated (logout s) = false ∧
    (logout s).username = none ∧
    logout (logout s) = logout s := by
  simp [logout, is_authenticated]

end Warpnet
